import Mathlib

/-!
Verification development for the QOR language pipeline: a shallow embedding
of the lexer (src/lexer/lexer.py, v3.0), the AST produced by the parser
(src/parser/parser.py, v2.0) and the tree-walking interpreter
(src/interpreter/interpreter.py, v2.5), together with theorems about the
behaviours the specification describes.

Modelling conventions:
- Python `int` is ℤ; Python `float` is idealized as ℚ (floats are dyadic
  rationals; no proved property depends on rounding of float arithmetic).
- Host facilities whose behaviour is outside the repository (the math-module
  builtins, `repr` of floats, `int()` on strings, method resolution on host
  values) are abstracted into a `Host` oracle structure; theorems that touch
  the evaluator hold for every oracle or are stated at a fixed dummy oracle
  when they never consult it.
- Python exceptions are modelled as explicit outcomes: the interpreter's
  own `RuntimeError`, the `ReturnValue` carrier, and uncaught host-level
  exceptions (e.g. `ZeroDivisionError` from `%`) are separate constructors.
- Non-termination is handled with a fuel parameter; running out of fuel is
  the distinct outcome `timeout`, never identified with any real outcome.
-/

namespace Qor

/-- Host-level (Python) exceptions that the interpreter code does not raise
itself but that can surface from primitive operations. -/
inductive HostErr where
  | zeroDivision
  | typeError
  | valueError
  | indexError
  | keyError
  | hostFailure (s : String)
  deriving Repr, DecidableEq

/-- Rendering of a host exception used when the interpreter interpolates the
caught exception into a RuntimeError message (the exact CPython message text
is summarized by a short tag). -/
def HostErr.msg : HostErr → String
  | .zeroDivision => "division by zero"
  | .typeError => "type error"
  | .valueError => "value error"
  | .indexError => "index out of range"
  | .keyError => "key error"
  | .hostFailure s => s

/-- Failure of a method-call resolution against a host value:
either `getattr` raises AttributeError, or the resolved method raises. -/
inductive MethodErr where
  | noAttr
  | raised (e : HostErr)
  deriving Repr, DecidableEq

/-- Errors that abort evaluation: the interpreter's own RuntimeError
(carrying its message) or an uncaught host-level exception. -/
inductive QErr where
  | runtime (msg : String)
  | host (e : HostErr)
  deriving Repr, DecidableEq

/-- Runtime values of QOR programs: Python ints, floats (idealized as ℚ),
booleans, strings, lists, dicts (association lists in insertion order),
`None`, and `range` objects as produced by `visit_RangeNode`. -/
inductive Value where
  | int (n : ℤ)
  | float (q : ℚ)
  | bool (b : Bool)
  | str (s : String)
  | list (xs : List Value)
  | dict (ps : List (Value × Value))
  | none
  | range (start stop step : ℤ)

/-- The numeric payload of a parser `NumberNode`: `int(v)` when the lexeme
has no dot, `float(v)` otherwise. -/
inductive NumLit where
  | int (n : ℤ)
  | float (q : ℚ)
  deriving Repr, DecidableEq

/-- The value a `NumberNode` literal evaluates to. -/
def NumLit.toValue : NumLit → Value
  | .int n => .int n
  | .float q => .float q

/-- Oracle for host facilities referenced by the interpreter but implemented
outside the repository: `repr` of a float, `int()` applied to a string, the
bodies of the built-in functions table, float-exponent power, and method
resolution on host values. The repository only stores references to these
host callables, so their behaviour is a parameter of the embedding. -/
structure Host where
  floatRepr : ℚ → String
  strToInt : String → Except HostErr ℤ
  callBuiltin : String → List Value → Except HostErr Value
  powFloat : ℚ → ℚ → Except HostErr Value
  callMethod : Value → String → List Value → Except MethodErr Value

/-- Fixed dummy oracle used to instantiate theorems about programs that
never consult the host. -/
def dummyHost : Host where
  floatRepr _ := ""
  strToInt _ := .error .valueError
  callBuiltin _ _ := .error .typeError
  powFloat _ _ := .error .typeError
  callMethod _ _ _ := .error .noAttr

/-- Interpret a value as a Python int-kinded number (int or bool), the way
Python arithmetic treats `bool` as a subtype of `int`. -/
def asInt? : Value → Option ℤ
  | .int n => some n
  | .bool b => some (if b then 1 else 0)
  | _ => Option.none

/-- Interpret a value as a number (int, bool or float), as ℚ. -/
def asRat? : Value → Option ℚ
  | .int n => some (n : ℚ)
  | .bool b => some (if b then 1 else 0)
  | .float q => some q
  | _ => Option.none

/-- Python truthiness (`bool(v)`), used by `if`/`while` conditions, `and`,
`or` and `not`. A range is truthy when it is non-empty. -/
def rangeLen (start stop step : ℤ) : ℤ :=
  if step > 0 then max 0 ((stop - start + step - 1).fdiv step)
  else if step < 0 then max 0 ((stop - start + step + 1).fdiv step)
  else 0

/-- The integer elements of a Python `range(start, stop, step)` object
(step is non-zero for every constructed range). -/
def rangeList (start stop step : ℤ) : List ℤ :=
  (List.range (rangeLen start stop step).toNat).map (fun i => start + step * i)

def truthy : Value → Bool
  | .int n => n ≠ 0
  | .float q => q ≠ 0
  | .bool b => b
  | .str s => s ≠ ""
  | .list xs => ¬ xs.isEmpty
  | .dict ps => ¬ ps.isEmpty
  | .none => false
  | .range a b c => rangeLen a b c > 0

/-- The guard `right == 0` of the `/` branch of `visit_BinaryOpNode`:
Python `==` against `0` is a numeric comparison (so `0.0 == 0` and
`False == 0` hold) and is `False` for every non-numeric value. -/
def pyEqZero (v : Value) : Bool :=
  match asRat? v with
  | some q => q = 0
  | Option.none => false

/-- Host `int()` conversion as used by `visit_RangeNode`: identity on ints,
0/1 on bools, truncation toward zero on floats, the host oracle on strings,
TypeError otherwise. -/
def pyToInt (h : Host) : Value → Except HostErr ℤ
  | .int n => .ok n
  | .bool b => .ok (if b then 1 else 0)
  | .float q => .ok (if q ≥ 0 then ⌊q⌋ else ⌈q⌉)
  | .str s => h.strToInt s
  | _ => .error .typeError

/-- Numeric addition following Python's tower: int-kinded operands give an
int, any float operand gives a float. -/
def numBin (fI : ℤ → ℤ → ℤ) (fQ : ℚ → ℚ → ℚ) (a b : Value) : Option Value :=
  match asInt? a, asInt? b with
  | some x, some y => some (.int (fI x y))
  | _, _ =>
    match asRat? a, asRat? b with
    | some x, some y => some (.float (fQ x y))
    | _, _ => Option.none

/-- Python `+`: numeric addition, string concatenation, list concatenation;
TypeError otherwise. -/
def pyAdd (a b : Value) : Except HostErr Value :=
  match numBin (· + ·) (· + ·) a b with
  | some v => .ok v
  | Option.none =>
    match a, b with
    | .str x, .str y => .ok (.str (x ++ y))
    | .list x, .list y => .ok (.list (x ++ y))
    | _, _ => .error .typeError

/-- Python `-` (binary): numeric only. -/
def pySub (a b : Value) : Except HostErr Value :=
  match numBin (· - ·) (· - ·) a b with
  | some v => .ok v
  | Option.none => .error .typeError

/-- Replicate a list `n` times (Python sequence repetition). -/
def seqRepeat (xs : List α) (n : ℤ) : List α :=
  (List.range n.toNat).flatMap (fun _ => xs)

/-- Python `*`: numeric product, or sequence repetition when one operand is
a string or list and the other is int-kinded. -/
def pyMul (a b : Value) : Except HostErr Value :=
  match numBin (· * ·) (· * ·) a b with
  | some v => .ok v
  | Option.none =>
    match a, b with
    | .str x, _ =>
      match asInt? b with
      | some n => .ok (.str (String.join (seqRepeat [x] n)))
      | Option.none => .error .typeError
    | _, .str y =>
      match asInt? a with
      | some n => .ok (.str (String.join (seqRepeat [y] n)))
      | Option.none => .error .typeError
    | .list x, _ =>
      match asInt? b with
      | some n => .ok (.list (seqRepeat x n))
      | Option.none => .error .typeError
    | _, .list y =>
      match asInt? a with
      | some n => .ok (.list (seqRepeat y n))
      | Option.none => .error .typeError
    | _, _ => .error .typeError

/-- Python `/` (true division, applied only after the interpreter's
`right == 0` guard): numeric operands give a float (idealized exact);
TypeError otherwise.  A numeric zero divisor can still reach this point only
through the guard, so the host ZeroDivisionError branch is kept for
faithfulness of the primitive itself. -/
def pyDiv (a b : Value) : Except HostErr Value :=
  match asRat? a, asRat? b with
  | some x, some y => if y = 0 then .error .zeroDivision else .ok (.float (x / y))
  | _, _ => .error .typeError

/-- Python `%`: floor-style modulo whose result takes the divisor's sign;
raises host ZeroDivisionError on a zero divisor (there is no interpreter
guard on this branch). -/
def pyMod (a b : Value) : Except HostErr Value :=
  match asInt? a, asInt? b with
  | some x, some y => if y = 0 then .error .zeroDivision else .ok (.int (Int.fmod x y))
  | _, _ =>
    match asRat? a, asRat? b with
    | some x, some y =>
      if y = 0 then .error .zeroDivision else .ok (.float (x - y * ⌊x / y⌋))
    | _, _ => .error .typeError

/-- Python `**`: int base and non-negative int exponent give an int;
a negative int exponent gives a float (ZeroDivisionError on base 0);
a float-kinded exponent is delegated to the host oracle; TypeError on
non-numeric operands. -/
def pyPow (h : Host) (a b : Value) : Except HostErr Value :=
  match asInt? b with
  | some e =>
    match asInt? a with
    | some x =>
      if e ≥ 0 then .ok (.int (x ^ e.toNat))
      else if x = 0 then .error .zeroDivision
      else .ok (.float (((x : ℚ) ^ (-e).toNat)⁻¹))
    | Option.none =>
      match asRat? a with
      | some x =>
        if e ≥ 0 then .ok (.float (x ^ e.toNat))
        else if x = 0 then .error .zeroDivision
        else .ok (.float ((x ^ (-e).toNat)⁻¹))
      | Option.none => .error .typeError
  | Option.none =>
    match asRat? a, b with
    | some x, .float e => h.powFloat x e
    | _, _ => .error .typeError

mutual

/-- Python `==` on runtime values: numeric values compare numerically across
int/bool/float, strings as strings, lists elementwise, dicts by unordered
key/value agreement, ranges as the integer sequences they denote; values of
different categories are unequal (never an error). -/
def pyEq : Value → Value → Bool
  | .str a, .str b => a == b
  | .list a, .list b => pyEqList a b
  | .dict a, .dict b => a.length == b.length && pyEqDictSub a b
  | .none, .none => true
  | .range a b c, .range a' b' c' => rangeList a b c == rangeList a' b' c'
  | x, y =>
    match asRat? x, asRat? y with
    | some p, some q => p == q
    | _, _ => false

def pyEqList : List Value → List Value → Bool
  | [], [] => true
  | x :: xs, y :: ys => pyEq x y && pyEqList xs ys
  | _, _ => false

def pyEqDictSub : List (Value × Value) → List (Value × Value) → Bool
  | [], _ => true
  | (k, v) :: rest, b => pyEqDictFind b k v && pyEqDictSub rest b

def pyEqDictFind : List (Value × Value) → Value → Value → Bool
  | [], _, _ => false
  | (k', v') :: rest, k, v => if pyEq k k' then pyEq v v' else pyEqDictFind rest k v

end

mutual

/-- Python `<` on runtime values: numeric across int/bool/float, strings
lexicographically, lists lexicographically (equality-skip then `<`);
everything else raises a host TypeError. -/
def pyLt : Value → Value → Except HostErr Bool
  | .str a, .str b => .ok (a < b)
  | .list a, .list b => pyLtList a b
  | x, y =>
    match asRat? x, asRat? y with
    | some p, some q => .ok (p < q)
    | _, _ => .error .typeError

def pyLtList : List Value → List Value → Except HostErr Bool
  | [], [] => .ok false
  | [], _ :: _ => .ok true
  | _ :: _, [] => .ok false
  | x :: xs, y :: ys => if pyEq x y then pyLtList xs ys else pyLt x y

end

mutual

/-- Python `<=` on runtime values (same shape as `pyLt`). -/
def pyLe : Value → Value → Except HostErr Bool
  | .str a, .str b => .ok (a ≤ b)
  | .list a, .list b => pyLeList a b
  | x, y =>
    match asRat? x, asRat? y with
    | some p, some q => .ok (p ≤ q)
    | _, _ => .error .typeError

def pyLeList : List Value → List Value → Except HostErr Bool
  | [], _ => .ok true
  | _ :: _, [] => .ok false
  | x :: xs, y :: ys => if pyEq x y then pyLeList xs ys else pyLt x y

end

/-- Python `a > b` for the built-in value categories coincides with `b < a`. -/
def pyGt (a b : Value) : Except HostErr Bool := pyLt b a

/-- Python `a >= b` for the built-in value categories coincides with `b <= a`. -/
def pyGe (a b : Value) : Except HostErr Bool := pyLe b a

mutual

/-- Python `repr` of runtime values (used inside the rendering of list and
dict contents); string quoting is modelled with plain single quotes, float
repr comes from the host oracle. -/
def pyRepr (h : Host) : Value → String
  | .int n => toString n
  | .float q => h.floatRepr q
  | .bool b => if b then "True" else "False"
  | .str s => "\x27" ++ s ++ "\x27"
  | .list xs => "[" ++ pyReprList h xs ++ "]"
  | .dict ps => "\x7b" ++ pyReprPairs h ps ++ "\x7d"
  | .none => "None"
  | .range a b c =>
    if c = 1 then "range(" ++ toString a ++ ", " ++ toString b ++ ")"
    else "range(" ++ toString a ++ ", " ++ toString b ++ ", " ++ toString c ++ ")"

def pyReprList (h : Host) : List Value → String
  | [] => ""
  | [x] => pyRepr h x
  | x :: xs => pyRepr h x ++ ", " ++ pyReprList h xs

def pyReprPairs (h : Host) : List (Value × Value) → String
  | [] => ""
  | [(k, v)] => pyRepr h k ++ ": " ++ pyRepr h v
  | (k, v) :: ps => pyRepr h k ++ ": " ++ pyRepr h v ++ ", " ++ pyReprPairs h ps

end

/-- Python `str` of runtime values, as used by `visit_PrintNode` and the
`str` builtin.  For every category except strings it coincides with `repr`;
the scalar cases are spelled out directly. -/
def pyStr (h : Host) : Value → String
  | .str s => s
  | .int n => toString n
  | .float q => h.floatRepr q
  | .bool b => if b then "True" else "False"
  | .none => "None"
  | .range a b c =>
    if c = 1 then "range(" ++ toString a ++ ", " ++ toString b ++ ")"
    else "range(" ++ toString a ++ ", " ++ toString b ++ ", " ++ toString c ++ ")"
  | v => pyRepr h v

/-- Lookup of a key in a Python dict value (hash lookup modelled as search
by `==` over the insertion-ordered pairs). -/
def pyDictFind? : List (Value × Value) → Value → Option Value
  | [], _ => Option.none
  | (k', v') :: rest, k => if pyEq k k' then some v' else pyDictFind? rest k

/-- Keys of the categories Python cannot hash; using one as a dict key or
dict index raises a host TypeError. -/
def unhashable : Value → Bool
  | .list _ => true
  | .dict _ => true
  | _ => false

/-- Python subscription `obj[index]` as exercised by `visit_IndexNode`:
list/str/range indexing with negative-index wraparound (IndexError when out
of range, TypeError on a non-int index), dict key lookup (KeyError when
missing, TypeError on an unhashable key); TypeError for non-subscriptable
values. -/
def pyIndex : Value → Value → Except HostErr Value
  | .list xs, i =>
    match asInt? i with
    | some n =>
      let m : ℤ := if n < 0 then n + xs.length else n
      if m < 0 then .error .indexError
      else
        match xs.get? m.toNat with
        | some v => .ok v
        | Option.none => .error .indexError
    | Option.none => .error .typeError
  | .str s, i =>
    match asInt? i with
    | some n =>
      let cs := s.toList
      let m : ℤ := if n < 0 then n + cs.length else n
      if m < 0 then .error .indexError
      else
        match cs.get? m.toNat with
        | some c => .ok (.str (String.mk [c]))
        | Option.none => .error .indexError
    | Option.none => .error .typeError
  | .range a b c, i =>
    match asInt? i with
    | some n =>
      let xs := rangeList a b c
      let m : ℤ := if n < 0 then n + xs.length else n
      if m < 0 then .error .indexError
      else
        match xs.get? m.toNat with
        | some v => .ok (.int v)
        | Option.none => .error .indexError
    | Option.none => .error .typeError
  | .dict ps, k =>
    if unhashable k then .error .typeError
    else
      match pyDictFind? ps k with
      | some v => .ok v
      | Option.none => .error .keyError
  | _, _ => .error .typeError

/-- Python unary `-`: numeric only. -/
def pyNeg : Value → Except HostErr Value
  | .int n => .ok (.int (-n))
  | .bool b => .ok (.int (-(if b then (1 : ℤ) else 0)))
  | .float q => .ok (.float (-q))
  | _ => .error .typeError

/-- Outcome of evaluating a node: a value (or unit for statements), the
`ReturnValue` control carrier, an error, or fuel exhaustion. -/
inductive Res (α : Type) where
  | ok (a : α)
  | ret (v : Value)
  | err (e : QErr)
  | timeout

/-- Lift a host-primitive result into an evaluation outcome: a raised host
exception propagates uncaught (there is no try/except around the operator
branches of `visit_BinaryOpNode`). -/
def liftHost : Except HostErr Value → Res Value
  | .ok v => .ok v
  | .error e => .err (.host e)

def liftHostBool : Except HostErr Bool → Res Value
  | .ok b => .ok (.bool b)
  | .error e => .err (.host e)

/-- The operator dispatch of `visit_BinaryOpNode`, applied after both
operands have been evaluated.  The `/` branch alone is guarded by the
interpreter's `right == 0` check; `and`/`or` select one of the two
already-computed operand values by the left operand's truthiness. -/
def binaryOpApply (h : Host) (op : String) (left right : Value) : Res Value :=
  if op = "+" then liftHost (pyAdd left right)
  else if op = "-" then liftHost (pySub left right)
  else if op = "*" then liftHost (pyMul left right)
  else if op = "/" then
    if pyEqZero right then .err (.runtime "Division by zero")
    else liftHost (pyDiv left right)
  else if op = "%" then liftHost (pyMod left right)
  else if op = "**" then liftHost (pyPow h left right)
  else if op = "==" then .ok (.bool (pyEq left right))
  else if op = "!=" then .ok (.bool (! pyEq left right))
  else if op = "<" then liftHostBool (pyLt left right)
  else if op = ">" then liftHostBool (pyGt left right)
  else if op = "<=" then liftHostBool (pyLe left right)
  else if op = ">=" then liftHostBool (pyGe left right)
  else if op = "and" then .ok (if truthy left then right else left)
  else if op = "or" then .ok (if truthy left then left else right)
  else .err (.runtime ("Unknown operator: " ++ op))

/-- The operator dispatch of `visit_UnaryOpNode`. -/
def unaryOpApply (op : String) (v : Value) : Res Value :=
  if op = "-" then liftHost (pyNeg v)
  else if op = "not" then .ok (.bool (! truthy v))
  else .err (.runtime ("Unknown unary operator: " ++ op))

/-- The sequence Python's `for` statement iterates over, materialized:
lists iterate their elements, strings their one-character strings, dicts
their keys, ranges their integers; other values raise a host TypeError. -/
def toIterList : Value → Except HostErr (List Value)
  | .list xs => .ok xs
  | .str s => .ok (s.toList.map (fun c => .str (String.mk [c])))
  | .dict ps => .ok (ps.map Prod.fst)
  | .range a b c => .ok ((rangeList a b c).map Value.int)
  | _ => .error .typeError

/-- Expression AST nodes, mirroring the parser's node classes
(`NumberNode`, `StringNode`, `BooleanNode`, `VariableNode`, `BinaryOpNode`,
`UnaryOpNode`, `FunctionCallNode`, `RangeNode` after its constructor's
argument-count normalization, `ListNode`, `DictNode`, `IndexNode`,
`MethodCallNode`).  Operators are carried as the strings the parser stores
and the interpreter dispatches on. -/
inductive Expr where
  | number (v : NumLit)
  | string (s : String)
  | boolean (b : Bool)
  | var (name : String)
  | binaryOp (left : Expr) (op : String) (right : Expr)
  | unaryOp (op : String) (operand : Expr)
  | functionCall (name : String) (args : List Expr)
  | rangeE (start stop step : Expr)
  | listE (elements : List Expr)
  | dictE (pairs : List (Expr × Expr))
  | indexE (obj : Expr) (index : Expr)
  | methodCall (obj : Expr) (method : String) (args : List Expr)

/-- Statement AST nodes (`AssignmentNode`, `PrintNode`, `FunctionDefNode`,
`ReturnNode`, `IfNode`, `ForNode`, `WhileNode`), plus `exprStmt` for a bare
expression used as a statement, which the parser emits for calls invoked
for effect. -/
inductive Stmt where
  | assignment (name : String) (value : Expr)
  | printStmt (expression : Expr)
  | functionDef (name : String) (params : List String) (body : List Stmt)
  | ret (value : Option Expr)
  | ifStmt (condition : Expr) (thenBody : List Stmt)
      (elifParts : List (Expr × List Stmt)) (elseBody : List Stmt)
  | forLoop (vname : String) (iterable : Expr) (body : List Stmt)
  | whileLoop (condition : Expr) (body : List Stmt)
  | exprStmt (e : Expr)

/-- A user-defined function as stored by `visit_FunctionDefNode`
(the source's `Function` class): name, ordered parameters, body statements,
and the snapshot copy `dict(self.global_vars)` taken at definition time. -/
structure Func where
  name : String
  params : List String
  body : List Stmt
  closure : List (String × Value)

/-- Insertion-ordered string-keyed mapping update (Python dict assignment):
overwrite in place when the key exists, append otherwise. -/
def assocSet (m : List (String × α)) (k : String) (v : α) : List (String × α) :=
  match m with
  | [] => [(k, v)]
  | (k', v') :: rest => if k' = k then (k', v) :: rest else (k', v') :: assocSet rest k v

def assocGet? : List (String × α) → String → Option α
  | [], _ => Option.none
  | (k', v) :: rest, k => if k' = k then some v else assocGet? rest k

/-- Interpreter state: the `Interpreter` object's `global_vars`,
`local_vars` (the head of the list is the most recently pushed scope,
i.e. the end of the Python list), `functions` and captured `output`.
The `builtins` table is a fixed name set (`builtinNames`) whose entries are
host callables reached through the `Host` oracle. -/
structure St where
  global_vars : List (String × Value)
  local_vars : List (List (String × Value))
  functions : List (String × Func)
  output : List String

/-- The keys of the `builtins` dict registered by `_register_builtins`. -/
def builtinNames : List String :=
  ["abs", "round", "min", "max",
   "sqrt", "pow", "exp", "log", "log10",
   "sin", "cos", "tan", "asin", "acos", "atan",
   "floor", "ceil",
   "len", "str", "int", "float"]

/-- The exact rational value of the IEEE-754 double `math.pi`. -/
def mathPi : ℚ := 884279719003555 / 281474976710656

/-- The exact rational value of the IEEE-754 double `math.e`. -/
def mathE : ℚ := 6121026514868073 / 2251799813685248

/-- The state of a freshly constructed interpreter: `_register_builtins`
has seeded `global_vars` with the constants `pi` and `e` (in that insertion
order); everything else is empty. -/
def initState : St where
  global_vars := [("pi", .float mathPi), ("e", .float mathE)]
  local_vars := []
  functions := []
  output := []

/-- The loop of `get_variable` over `reversed(self.local_vars)`: the scopes
are searched from the most recently pushed one down to the oldest. -/
def lookupLocals : List (List (String × Value)) → String → Option Value
  | [], _ => Option.none
  | scope :: rest, name =>
    match assocGet? scope name with
    | some v => some v
    | Option.none => lookupLocals rest name

/-- `Interpreter.get_variable`: all local scopes newest-first, then the
global scope, then a RuntimeError naming the variable. -/
def getVariable (s : St) (name : String) : Res Value :=
  match lookupLocals s.local_vars name with
  | some v => .ok v
  | Option.none =>
    match assocGet? s.global_vars name with
    | some v => .ok v
    | Option.none => .err (.runtime ("Undefined variable: \x27" ++ name ++ "\x27"))

/-- `Interpreter.set_variable`: write into the innermost local scope when
one exists, else into the global scope. -/
def setVariable (s : St) (name : String) (v : Value) : St :=
  match s.local_vars with
  | [] => { s with global_vars := assocSet s.global_vars name v }
  | scope :: rest => { s with local_vars := assocSet scope name v :: rest }

/-- `Interpreter.push_scope`. -/
def pushScope (s : St) (initial : List (String × Value)) : St :=
  { s with local_vars := initial :: s.local_vars }

/-- `Interpreter.pop_scope` (pops only when a local scope exists). -/
def popScope (s : St) : St :=
  match s.local_vars with
  | [] => s
  | _ :: rest => { s with local_vars := rest }

/-- The `Interpreter.variables` property: the current scope, i.e. the
innermost local scope if any, else the global scope. -/
def currentScope (s : St) : List (String × Value) :=
  match s.local_vars with
  | [] => s.global_vars
  | scope :: _ => scope

/-- Exception-propagating sequencing of evaluation steps: `ret`, `err` and
`timeout` abort the continuation, carrying the state reached so far
(Python exceptions do not roll back side effects). -/
def stepBind : St × Res α → (St → α → St × Res β) → St × Res β
  | (s, .ok a), f => f s a
  | (s, .ret v), _ => (s, .ret v)
  | (s, .err e), _ => (s, .err e)
  | (s, .timeout), _ => (s, .timeout)

/-- Python dict insertion keyed by `==` (used by `visit_DictNode`): an
existing equal key keeps its original key object and gets the new value,
otherwise the pair is appended. -/
def pyDictSet : List (Value × Value) → Value → Value → List (Value × Value)
  | [], k, v => [(k, v)]
  | (k', v') :: rest, k, v =>
    if pyEq k k' then (k', v) :: rest else (k', v') :: pyDictSet rest k v

/-- One fuel level of the evaluator: the mutually recursive visit methods
bundled as fields, each recursive visit going through the previous level.
Fuel models only non-termination; every real outcome is fuel-independent
once enough fuel is supplied. -/
structure Stepper where
  evalExpr : St → Expr → St × Res Value
  evalArgs : St → List Expr → St × Res (List Value)
  evalDictPairs : St → List (Expr × Expr) → List (Value × Value) → St × Res (List (Value × Value))
  execStmt : St → Stmt → St × Res Unit
  execStmts : St → List Stmt → St × Res Unit
  execElifs : St → List (Expr × List Stmt) → List Stmt → St × Res Unit
  execFor : St → String → List Value → List Stmt → St × Res Unit
  execWhile : St → Expr → List Stmt → St × Res Unit

/-- Level zero: out of fuel everywhere. -/
def zeroStepper : Stepper where
  evalExpr s _ := (s, .timeout)
  evalArgs s _ := (s, .timeout)
  evalDictPairs s _ _ := (s, .timeout)
  execStmt s _ := (s, .timeout)
  execStmts s _ := (s, .timeout)
  execElifs s _ _ := (s, .timeout)
  execFor s _ _ _ := (s, .timeout)
  execWhile s _ _ := (s, .timeout)

/-- The successor level: a direct transcription of the `visit_*` methods of
`Interpreter` (and of their internal loops over argument lists, statement
lists, elif chains and loop iterations). -/
def succStepper (h : Host) (prev : Stepper) : Stepper where
  evalExpr s e :=
    match e with
    | .number v => (s, .ok v.toValue)
    | .string str => (s, .ok (.str str))
    | .boolean b => (s, .ok (.bool b))
    | .var n => (s, getVariable s n)
    | .binaryOp l op r =>
      stepBind (prev.evalExpr s l) fun s1 vl =>
        stepBind (prev.evalExpr s1 r) fun s2 vr =>
          (s2, binaryOpApply h op vl vr)
    | .unaryOp op e0 =>
      stepBind (prev.evalExpr s e0) fun s1 v => (s1, unaryOpApply op v)
    | .functionCall name args =>
      if name ∈ builtinNames then
        stepBind (prev.evalArgs s args) fun s1 vs =>
          match h.callBuiltin name vs with
          | .ok v => (s1, .ok v)
          | .error err =>
            (s1, .err (.runtime
              ("Error calling built-in function \x27" ++ name ++ "\x27: " ++ err.msg)))
      else
        match assocGet? s.functions name with
        | Option.none =>
          (s, .err (.runtime ("Undefined function: \x27" ++ name ++ "\x27")))
        | some func =>
          stepBind (prev.evalArgs s args) fun s1 vs =>
            if vs.length ≠ func.params.length then
              (s1, .err (.runtime
                ("Function \x27" ++ name ++ "\x27 expects "
                  ++ toString func.params.length ++ " arguments, got "
                  ++ toString vs.length)))
            else
              match prev.execStmts
                  (pushScope s1
                    ((func.params.zip vs).foldl (fun m kv => assocSet m kv.1 kv.2) []))
                  func.body with
              | (s3, .ok _) => (popScope s3, .ok Value.none)
              | (s3, .ret v) => (popScope s3, .ok v)
              | (s3, .err err) => (popScope s3, .err err)
              | (s3, .timeout) => (s3, .timeout)
    | .rangeE e1 e2 e3 =>
      stepBind (prev.evalExpr s e1) fun s1 v1 =>
        match pyToInt h v1 with
        | .error err => (s1, .err (.host err))
        | .ok a =>
          stepBind (prev.evalExpr s1 e2) fun s2 v2 =>
            match pyToInt h v2 with
            | .error err => (s2, .err (.host err))
            | .ok b =>
              stepBind (prev.evalExpr s2 e3) fun s3 v3 =>
                match pyToInt h v3 with
                | .error err => (s3, .err (.host err))
                | .ok c =>
                  if c = 0 then (s3, .err (.host .valueError))
                  else (s3, .ok (.range a b c))
    | .listE elems =>
      stepBind (prev.evalArgs s elems) fun s1 vs => (s1, .ok (.list vs))
    | .dictE pairs =>
      stepBind (prev.evalDictPairs s pairs []) fun s1 ps => (s1, .ok (.dict ps))
    | .indexE obj idx =>
      stepBind (prev.evalExpr s obj) fun s1 vo =>
        stepBind (prev.evalExpr s1 idx) fun s2 vi =>
          match pyIndex vo vi with
          | .ok v => (s2, .ok v)
          | .error err => (s2, .err (.runtime ("Index error: " ++ err.msg)))
    | .methodCall obj m args =>
      stepBind (prev.evalExpr s obj) fun s1 vo =>
        stepBind (prev.evalArgs s1 args) fun s2 vs =>
          match h.callMethod vo m vs with
          | .ok v => (s2, .ok v)
          | .error .noAttr =>
            (s2, .err (.runtime ("Object has no method \x27" ++ m ++ "\x27")))
          | .error (.raised err) =>
            (s2, .err (.runtime ("Error calling method \x27" ++ m ++ "\x27: " ++ err.msg)))
  evalArgs s es :=
    match es with
    | [] => (s, .ok [])
    | e :: rest =>
      stepBind (prev.evalExpr s e) fun s1 v =>
        stepBind (prev.evalArgs s1 rest) fun s2 vs => (s2, .ok (v :: vs))
  evalDictPairs s pairs acc :=
    match pairs with
    | [] => (s, .ok acc)
    | (ke, ve) :: rest =>
      stepBind (prev.evalExpr s ke) fun s1 k =>
        stepBind (prev.evalExpr s1 ve) fun s2 v =>
          if unhashable k then (s2, .err (.host .typeError))
          else prev.evalDictPairs s2 rest (pyDictSet acc k v)
  execStmt s st :=
    match st with
    | .assignment name e =>
      stepBind (prev.evalExpr s e) fun s1 v => (setVariable s1 name v, .ok ())
    | .printStmt e =>
      stepBind (prev.evalExpr s e) fun s1 v =>
        ({ s1 with output := s1.output ++ [pyStr h v] }, .ok ())
    | .functionDef name params body =>
      ({ s with functions := assocSet s.functions name ⟨name, params, body, s.global_vars⟩ },
       .ok ())
    | .ret oe =>
      match oe with
      | Option.none => (s, .ret Value.none)
      | some e => stepBind (prev.evalExpr s e) fun s1 v => (s1, .ret v)
    | .ifStmt cond thenB elifs elseB =>
      stepBind (prev.evalExpr s cond) fun s1 c =>
        if truthy c then prev.execStmts s1 thenB
        else prev.execElifs s1 elifs elseB
    | .forLoop name iter body =>
      stepBind (prev.evalExpr s iter) fun s1 v =>
        match toIterList v with
        | .error err => (s1, .err (.host err))
        | .ok vs => prev.execFor s1 name vs body
    | .whileLoop cond body => prev.execWhile s cond body
    | .exprStmt e =>
      stepBind (prev.evalExpr s e) fun s1 _ => (s1, .ok ())
  execStmts s sts :=
    match sts with
    | [] => (s, .ok ())
    | st :: rest =>
      stepBind (prev.execStmt s st) fun s1 _ => prev.execStmts s1 rest
  execElifs s elifs elseB :=
    match elifs with
    | [] => prev.execStmts s elseB
    | (c, body) :: rest =>
      stepBind (prev.evalExpr s c) fun s1 v =>
        if truthy v then prev.execStmts s1 body else prev.execElifs s1 rest elseB
  execFor s name vs body :=
    match vs with
    | [] => (s, .ok ())
    | v :: rest =>
      stepBind (prev.execStmts (setVariable s name v) body) fun s2 _ =>
        prev.execFor s2 name rest body
  execWhile s cond body :=
    stepBind (prev.evalExpr s cond) fun s1 c =>
      if truthy c then
        stepBind (prev.execStmts s1 body) fun s2 _ => prev.execWhile s2 cond body
      else (s1, .ok ())

/-- The evaluator at a given fuel level. -/
def stepper (h : Host) : Nat → Stepper
  | 0 => zeroStepper
  | n + 1 => succStepper h (stepper h n)

/-- `Interpreter.interpret`: execute a list of AST statement nodes in order
against a given state. -/
def interpret (h : Host) (fuel : Nat) (s : St) (ast : List Stmt) : St × Res Unit :=
  (stepper h fuel).execStmts s ast

/-- Run a program on a freshly constructed interpreter. -/
def run (h : Host) (fuel : Nat) (prog : List Stmt) : St × Res Unit :=
  interpret h fuel initState prog

/-! ## The lexer (src/lexer/lexer.py, v3.0) -/

/-- The token-type tags of the lexer's `TOKEN_TYPES` table. -/
inductive TokTag where
  | COMMENT
  | FUNCTION | RETURN | IF | ELIF | ELSE | FOR | WHILE | IN | RANGE
  | AND | OR | NOT | TRUE | FALSE | PRINT
  | EQ | NEQ | LEQ | GEQ | LT | GT
  | STRING | NUMBER
  | PLUS | MINUS | MULTIPLY | DIVIDE | MODULO | POWER
  | ASSIGN | LPAREN | RPAREN | LBRACKET | RBRACKET | COMMA | COLON
  | ID
  | INDENT | SKIP | NEWLINE
  deriving Repr, DecidableEq

/-- The ordered `TOKEN_TYPES` table, in the exact order of the source list:
order encodes match priority, and in the source `POWER` is listed after
`MULTIPLY` (despite the comment next to it). -/
def TOKEN_TYPES : List TokTag :=
  [.COMMENT,
   .FUNCTION, .RETURN, .IF, .ELIF, .ELSE, .FOR, .WHILE, .IN, .RANGE,
   .AND, .OR, .NOT, .TRUE, .FALSE, .PRINT,
   .EQ, .NEQ, .LEQ, .GEQ, .LT, .GT,
   .STRING, .NUMBER,
   .PLUS, .MINUS, .MULTIPLY, .DIVIDE, .MODULO, .POWER,
   .ASSIGN, .LPAREN, .RPAREN, .LBRACKET, .RBRACKET, .COMMA, .COLON,
   .ID,
   .INDENT, .SKIP, .NEWLINE]

/-- A space or a tab (the `[ \t]` character class). -/
def spaceTab (c : Char) : Bool := c = ' ' || c = '\t'

/-- The `\w` word-character class (modelled over ASCII). -/
def wordChar (c : Char) : Bool := c.isAlphanum || c = '_'

/-- Match a literal pattern (a keyword or operator regex with no
metacharacters) as a prefix of the remaining input; like `re.match`, it is
not anchored to word boundaries. -/
def matchLit (pat : String) (cs : List Char) : Option (List Char × List Char) :=
  if pat.toList.isPrefixOf cs then some (pat.toList, cs.drop pat.length) else Option.none

/-- `re.match` of the pattern of one token type at the current position.
`pos` is the absolute cursor (the `^` anchor of the INDENT pattern only
matches at position 0 because `re.match(code, pos)` never treats `pos` as a
line start).  Every pattern matches at least one character. -/
def matchPat (tag : TokTag) (cs : List Char) (pos : Nat) : Option (List Char × List Char) :=
  match tag with
  | .COMMENT =>
    match cs with
    | '#' :: rest => some ('#' :: rest.takeWhile (· ≠ '\n'), rest.dropWhile (· ≠ '\n'))
    | _ => Option.none
  | .FUNCTION => matchLit "function" cs
  | .RETURN => matchLit "return" cs
  | .IF => matchLit "if" cs
  | .ELIF => matchLit "elif" cs
  | .ELSE => matchLit "else" cs
  | .FOR => matchLit "for" cs
  | .WHILE => matchLit "while" cs
  | .IN => matchLit "in" cs
  | .RANGE => matchLit "range" cs
  | .AND => matchLit "and" cs
  | .OR => matchLit "or" cs
  | .NOT => matchLit "not" cs
  | .TRUE => matchLit "True" cs
  | .FALSE => matchLit "False" cs
  | .PRINT => matchLit "print" cs
  | .EQ => matchLit "==" cs
  | .NEQ => matchLit "!=" cs
  | .LEQ => matchLit "<=" cs
  | .GEQ => matchLit ">=" cs
  | .LT => matchLit "<" cs
  | .GT => matchLit ">" cs
  | .STRING =>
    match cs with
    | '"' :: rest =>
      let body := rest.takeWhile (· ≠ '"')
      match rest.dropWhile (· ≠ '"') with
      | '"' :: rest2 => some ('"' :: body ++ ['"'], rest2)
      | _ => Option.none
    | _ => Option.none
  | .NUMBER =>
    let ds := cs.takeWhile Char.isDigit
    if ds.isEmpty then Option.none
    else
      match cs.drop ds.length with
      | '.' :: rest2 =>
        let ds2 := rest2.takeWhile Char.isDigit
        if ds2.isEmpty then some (ds, cs.drop ds.length)
        else some (ds ++ '.' :: ds2, rest2.drop ds2.length)
      | _ => some (ds, cs.drop ds.length)
  | .PLUS => matchLit "+" cs
  | .MINUS => matchLit "-" cs
  | .MULTIPLY => matchLit "*" cs
  | .DIVIDE => matchLit "/" cs
  | .MODULO => matchLit "%" cs
  | .POWER => matchLit "**" cs
  | .ASSIGN => matchLit "=" cs
  | .LPAREN => matchLit "(" cs
  | .RPAREN => matchLit ")" cs
  | .LBRACKET => matchLit "[" cs
  | .RBRACKET => matchLit "]" cs
  | .COMMA => matchLit "," cs
  | .COLON => matchLit ":" cs
  | .ID =>
    match cs with
    | c :: rest =>
      if c.isAlpha || c = '_' then some (c :: rest.takeWhile wordChar, rest.dropWhile wordChar)
      else Option.none
    | [] => Option.none
  | .INDENT =>
    if pos ≠ 0 then Option.none
    else
      let ws := cs.takeWhile spaceTab
      if ws.isEmpty then Option.none else some (ws, cs.drop ws.length)
  | .SKIP =>
    let ws := cs.takeWhile spaceTab
    if ws.isEmpty then Option.none else some (ws, cs.drop ws.length)
  | .NEWLINE => matchLit "\n" cs

/-- The inner loop over `TOKEN_TYPES`: take the first rule that matches at
the cursor; the INDENT rule is skipped entirely when not at a line start. -/
def firstMatch (tags : List TokTag) (cs : List Char) (pos : Nat) (atLineStart : Bool) :
    Option (TokTag × List Char × List Char) :=
  match tags with
  | [] => Option.none
  | tag :: rest =>
    if tag = .INDENT ∧ ¬ atLineStart then firstMatch rest cs pos atLineStart
    else
      match matchPat tag cs pos with
      | some (m, r) => some (tag, m, r)
      | Option.none => firstMatch rest cs pos atLineStart

/-- Result of `Lexer.tokenize`: the token list, or the `SyntaxError`
raised when no pattern matches (carrying line, position and the offending
character).  `fuelOut` is the modelling artifact for exhausted fuel and is
unreachable for fuel exceeding the input length. -/
inductive LexResult where
  | ok (tokens : List (TokTag × String))
  | error (line : Nat) (pos : Nat) (ch : Char)
  | fuelOut
  deriving Repr, DecidableEq

/-- The cursor loop of `Lexer.tokenize`: SKIP/COMMENT/INDENT matches are
discarded (leaving `at_line_start` untouched), every other match is
appended as a token and clears `at_line_start`, and a NEWLINE match then
sets `at_line_start` and bumps the line counter. -/
def tokenizeAux : Nat → List Char → Nat → Nat → Bool → List (TokTag × String) → LexResult
  | _, [], _, _, _, acc => .ok acc
  | 0, _ :: _, _, _, _, _ => .fuelOut
  | fuel + 1, c :: cs, pos, line, als, acc =>
    match firstMatch TOKEN_TYPES (c :: cs) pos als with
    | Option.none => .error line pos c
    | some (tag, m, rest) =>
      let discard := tag = .SKIP ∨ tag = .COMMENT ∨ tag = .INDENT
      let acc' := if discard then acc else acc ++ [(tag, String.mk m)]
      let als' := if discard then als else false
      let als'' := if tag = .NEWLINE then true else als'
      let line' := if tag = .NEWLINE then line + 1 else line
      tokenizeAux fuel rest (pos + m.length) line' als'' acc'

/-- `Lexer.tokenize` on a source string (line counter starts at 1, cursor
at 0, at a line start). -/
def tokenize (code : String) : LexResult :=
  tokenizeAux (code.length + 1) code.toList 0 1 true []

/-! ## Concrete programs used by the theorems -/

/-- The AST of
`g = 1` / `function f(): return g` / `g = 2` / `r = f()`:
a global is read by a function body after being reassigned post-definition. -/
def progSnapshot : List Stmt :=
  [.assignment "g" (.number (.int 1)),
   .functionDef "f" [] [.ret (some (.var "g"))],
   .assignment "g" (.number (.int 2)),
   .assignment "r" (.functionCall "f" [])]

/-- The AST of `y = True or 10 / 0`: the left operand of `or` is truthy,
the right operand divides by zero. -/
def progShortCircuit : List Stmt :=
  [.assignment "y"
    (.binaryOp (.boolean true) "or"
      (.binaryOp (.number (.int 10)) "/" (.number (.int 0))))]

/-- The AST of
`function g(): return x` / `function f(x): return g()` / `y = f(7)`:
inside the call of `g`, the name `x` is bound only in the enclosing call
frame of `f` (as its parameter), not in `g`'s own scope nor globally. -/
def progEnclosing : List Stmt :=
  [.functionDef "g" [] [.ret (some (.var "x"))],
   .functionDef "f" ["x"] [.ret (some (.functionCall "g" []))],
   .assignment "y" (.functionCall "f" [.number (.int 7)])]

/-- The AST of the bare expression statement `10 / 0`. -/
def progDivZero : List Stmt :=
  [.exprStmt (.binaryOp (.number (.int 10)) "/" (.number (.int 0)))]

/-- The AST of `for i in range(5): print(i)` (the parser's `RangeNode` with
one argument normalizes to start 0 and step 1). -/
def progForRange : List Stmt :=
  [.forLoop "i" (.rangeE (.number (.int 0)) (.number (.int 5)) (.number (.int 1)))
    [.printStmt (.var "i")]]

/-- The AST of `pi = 3` / `x = pi`: rebinding the pre-registered constant
at top level, then reading it back through the evaluator. -/
def progRebindPi : List Stmt :=
  [.assignment "pi" (.number (.int 3)),
   .assignment "x" (.var "pi")]

/-- A state whose function table holds a parameterless `f` returning `1`,
used to exercise a user-defined call. -/
def stateWithF : St where
  global_vars := []
  local_vars := []
  functions := [("f", ⟨"f", [], [.ret (some (.number (.int 1)))], []⟩)]
  output := []

/-- An evaluation step restores the local-scope stack to its input depth,
unless it ran out of fuel (in which case the modelled run never left the
code being evaluated). -/
def PresLen (s : St) (r : St × Res α) : Prop :=
  r.2 ≠ Res.timeout → r.1.local_vars.length = s.local_vars.length

/-! ## Theorems -/

/-- C1, counterexample: after `g = 1; function f(): return g; g = 2; r = f()`
the call returns the post-reassignment value `2`, not the definition-time
value `1` that the claimed snapshot semantics would give. -/
theorem C1_counterexample :
    assocGet? (run dummyHost 40 progSnapshot).1.global_vars "r" = some (.int 2)
    ∧ (run dummyHost 40 progSnapshot).2 = .ok ()
    ∧ assocGet? (run dummyHost 40 progSnapshot).1.global_vars "r" ≠ some (.int 1) := by
  refine ⟨rfl, rfl, ?_⟩
  intro hc
  have h2 : some (Value.int 2) = some (Value.int 1) := hc
  injection h2 with h3
  injection h3 with h4
  exact absurd h4 (by decide)

/-- C1, amended: `visit_FunctionDefNode` does store a snapshot copy of the
global scope in the function's closure field, but `visit_FunctionCallNode`
and `get_variable` never consult it — variable reads during a call fall
back to the live global scope, so the call of `f` sees the reassigned
value `2`. -/
theorem C1_snapshot_stored_but_unused :
    assocGet? (run dummyHost 40 progSnapshot).1.functions "f"
      = some ⟨"f", [], [.ret (some (.var "g"))],
              [("pi", .float mathPi), ("e", .float mathE), ("g", .int 1)]⟩
    ∧ assocGet? (run dummyHost 40 progSnapshot).1.global_vars "r" = some (.int 2)
    ∧ (run dummyHost 40 progSnapshot).2 = .ok () := ⟨rfl, rfl, rfl⟩

/-- C2, counterexample: in `y = True or 10 / 0` the left operand of `or` is
truthy and already determines the result, yet evaluation raises the
division-by-zero RuntimeError from the right operand — the right operand
was evaluated. -/
theorem C2_counterexample :
    (run dummyHost 40 progShortCircuit).2 = .err (.runtime "Division by zero")
    ∧ (run dummyHost 40 progShortCircuit).2 ≠ .ok () := by
  refine ⟨rfl, ?_⟩
  intro hc
  have h2 : Res.err (α := Unit) (.runtime "Division by zero") = Res.ok () := hc
  exact Res.noConfusion h2

/-- C3: the v3.0 pattern table lists `MULTIPLY` before `POWER` (contradicting
the source's own comment that POWER "must come before MULTIPLY"), so
`2 ** 3` lexes as two consecutive MULTIPLY tokens, never a POWER token. -/
theorem C3_power_lexes_as_two_multiply :
    tokenize "2 ** 3"
      = .ok [(.NUMBER, "2"), (.MULTIPLY, "*"), (.MULTIPLY, "*"), (.NUMBER, "3")]
    ∧ List.indexOf TokTag.MULTIPLY TOKEN_TYPES < List.indexOf TokTag.POWER TOKEN_TYPES
    ∧ tokenize "2 ** 3" ≠ .ok [(.NUMBER, "2"), (.POWER, "**"), (.NUMBER, "3")] := by
  refine ⟨rfl, by decide, ?_⟩
  intro hc
  have h2 : LexResult.ok [(.NUMBER, "2"), (.MULTIPLY, "*"), (.MULTIPLY, "*"), (.NUMBER, "3")]
      = .ok [(.NUMBER, "2"), (.POWER, "**"), (.NUMBER, "3")] := hc
  exact absurd h2 (by decide)

/-- C4, counterexample: with `function g(): return x` and
`function f(x): return g()`, the call `f(7)` succeeds with `7`: inside `g`,
the name `x` is found in the enclosing frame of `f`, not reported as an
undefined variable as the claimed two-level lookup would require. -/
theorem C4_counterexample :
    assocGet? (run dummyHost 40 progEnclosing).1.global_vars "y" = some (.int 7)
    ∧ (run dummyHost 40 progEnclosing).2 = .ok ()
    ∧ (run dummyHost 40 progEnclosing).2
        ≠ .err (.runtime "Undefined variable: \x27x\x27") := by
  refine ⟨rfl, rfl, ?_⟩
  intro hc
  have h2 : Res.ok () = Res.err (α := Unit) (.runtime "Undefined variable: \x27x\x27") := hc
  exact Res.noConfusion h2

/-- C4, amended: `get_variable` walks every local scope from the most
recently pushed to the oldest and then the global scope, so a name bound in
an older call frame's local scope — and absent from every more recent local
scope — resolves to that older frame's binding rather than an
undefined-variable error. -/
theorem C4_enclosing_scopes_visible
    (g : List (String × Value)) (fs : List (String × Func)) (out : List String)
    (pre : List (List (String × Value))) (sc : List (String × Value))
    (post : List (List (String × Value))) (name : String) (v : Value)
    (hpre : ∀ sc' ∈ pre, assocGet? sc' name = Option.none)
    (hsc : assocGet? sc name = some v) :
    getVariable ⟨g, pre ++ sc :: post, fs, out⟩ name = .ok v := by
  have hl : lookupLocals (pre ++ sc :: post) name = some v := by
    induction pre with
    | nil => simp [lookupLocals, hsc]
    | cons sc0 rest ih =>
      have h0 := hpre sc0 (List.mem_cons_self sc0 rest)
      have hr := ih (fun sc' hm => hpre sc' (List.mem_cons_of_mem sc0 hm))
      simp [lookupLocals, h0, hr]
  simp [getVariable, hl]

/-- Witness for C4: the name `x`, absent from the innermost local scope
`[]` but bound to `7` in the enclosing frame's scope, resolves to `7`. -/
theorem C4_witness :
    getVariable ⟨[], [[], [("x", Value.int 7)]], [], []⟩ "x" = .ok (.int 7) :=
  C4_enclosing_scopes_visible [] [] [] [[]] [("x", .int 7)] [] "x" (.int 7)
    (fun sc' hm => by rw [List.mem_singleton.mp hm]; rfl) rfl

/-- C5: the v3.0 lexer has no brace patterns at all, so the dict-literal
source from the repository's own tests dies in the lexer with the
unrecognized-character SyntaxError at the opening brace (line 1, position
0); no token list is ever produced, and `parse_dict` is unreachable
through the pipeline. -/
theorem C5_dict_literal_fails_at_lexer :
    tokenize "\x7b\"name\": \"Ali\", \"age\": 25\x7d" = .error 1 0 '\x7b'
    ∧ ∀ toks, tokenize "\x7b\"name\": \"Ali\", \"age\": 25\x7d" ≠ .ok toks := by
  refine ⟨rfl, fun toks hc => ?_⟩
  have h2 : LexResult.error 1 0 '\x7b' = .ok toks := hc
  exact LexResult.noConfusion h2

/-- C7: `for i in range(5): print(i)` at top level prints the five lines
`0`..`4` in order, completes normally, and leaves `i` bound to `4` in the
current (global) scope. -/
theorem C7_for_range_prints_and_binds :
    (run dummyHost 40 progForRange).1.output = ["0", "1", "2", "3", "4"]
    ∧ assocGet? (currentScope (run dummyHost 40 progForRange).1) "i" = some (.int 4)
    ∧ (run dummyHost 40 progForRange).2 = .ok () := ⟨rfl, rfl, rfl⟩

/-- C9: `a % 0` on any int left operand raises the host-level
ZeroDivisionError (the `%` branch has no interpreter guard), which is a
different error kind from every interpreter RuntimeError. -/
theorem C9_modulo_zero_host_error (h : Host) (n : Nat) (s : St) (a : ℤ) :
    (stepper h (n + 2)).evalExpr s (.binaryOp (.number (.int a)) "%" (.number (.int 0)))
      = (s, .err (.host .zeroDivision))
    ∧ ∀ msg : String, QErr.host .zeroDivision ≠ QErr.runtime msg :=
  ⟨rfl, fun _ hc => QErr.noConfusion hc⟩

/-- C2, amended: `visit_BinaryOpNode` evaluates both operands before
dispatching on the operator, so `and`/`or` do not short-circuit: even when
the left operand alone determines the result (truthy for `or`, falsy for
`and`), the whole expression behaves as the evaluation of the right operand
— its state effects and errors included — followed by selection of the
decisive left value. -/
theorem C2_both_operands_always_evaluated (h : Host) (n : Nat) (s s1 : St)
    (l r : Expr) (vL : Value)
    (hl : (stepper h n).evalExpr s l = (s1, Res.ok vL)) :
    (truthy vL = true →
      (stepper h (n + 1)).evalExpr s (.binaryOp l "or" r)
        = stepBind ((stepper h n).evalExpr s1 r) (fun s2 _ => (s2, Res.ok vL)))
    ∧ (truthy vL = false →
      (stepper h (n + 1)).evalExpr s (.binaryOp l "and" r)
        = stepBind ((stepper h n).evalExpr s1 r) (fun s2 _ => (s2, Res.ok vL))) := by
  constructor <;> intro ht
  · show stepBind ((stepper h n).evalExpr s l) _ = _
    rw [hl]
    show stepBind ((stepper h n).evalExpr s1 r) _ = _
    rcases hr : (stepper h n).evalExpr s1 r with ⟨s2, r2⟩
    cases r2 with
    | ok vr =>
      show (s2, binaryOpApply h "or" vL vr) = (s2, Res.ok vL)
      have hop : binaryOpApply h "or" vL vr = Res.ok (if truthy vL then vL else vr) := rfl
      rw [hop, ht]
      rfl
    | ret v => rfl
    | err e => rfl
    | timeout => rfl
  · show stepBind ((stepper h n).evalExpr s l) _ = _
    rw [hl]
    show stepBind ((stepper h n).evalExpr s1 r) _ = _
    rcases hr : (stepper h n).evalExpr s1 r with ⟨s2, r2⟩
    cases r2 with
    | ok vr =>
      show (s2, binaryOpApply h "and" vL vr) = (s2, Res.ok vL)
      have hop : binaryOpApply h "and" vL vr = Res.ok (if truthy vL then vr else vL) := rfl
      rw [hop, ht]
      rfl
    | ret v => rfl
    | err e => rfl
    | timeout => rfl

/-- Witness for C2: with a truthy left operand `True`, the `or` expression
still evaluates the right operand `7` (and the result value is the left
operand). -/
theorem C2_witness :
    (stepper dummyHost 6).evalExpr initState
        (.binaryOp (.boolean true) "or" (.number (.int 7)))
      = stepBind ((stepper dummyHost 5).evalExpr initState (.number (.int 7)))
          (fun s2 _ => (s2, Res.ok (.bool true))) :=
  (C2_both_operands_always_evaluated dummyHost 5 initState initState
    (.boolean true) (.number (.int 7)) (.bool true) rfl).1 rfl

/-- C6: a division whose right operand evaluates to a numeric zero raises
the interpreter RuntimeError "Division by zero" (shown concretely for
`10 / 0` and generally for any operand expressions), and a variable
reference resolved by neither the local-scope stack nor the global scope
raises the undefined-variable RuntimeError. -/
theorem C6_div_zero_and_undefined_variable :
    (∀ (h : Host) (n : Nat) (s s1 s2 : St) (l r : Expr) (vl vr : Value),
      (stepper h n).evalExpr s l = (s1, Res.ok vl) →
      (stepper h n).evalExpr s1 r = (s2, Res.ok vr) →
      pyEqZero vr = true →
      (stepper h (n + 1)).evalExpr s (.binaryOp l "/" r)
        = (s2, .err (.runtime "Division by zero")))
    ∧ (run dummyHost 40 progDivZero).2 = .err (.runtime "Division by zero")
    ∧ (∀ (h : Host) (n : Nat) (s : St) (name : String),
      lookupLocals s.local_vars name = Option.none →
      assocGet? s.global_vars name = Option.none →
      (stepper h (n + 1)).evalExpr s (.var name)
        = (s, .err (.runtime ("Undefined variable: \x27" ++ name ++ "\x27")))) := by
  refine ⟨?_, rfl, ?_⟩
  · intro h n s s1 s2 l r vl vr hl hr hz
    show stepBind ((stepper h n).evalExpr s l) _ = _
    rw [hl]
    show stepBind ((stepper h n).evalExpr s1 r) _ = _
    rw [hr]
    show (s2, binaryOpApply h "/" vl vr) = _
    have hop : binaryOpApply h "/" vl vr
        = if pyEqZero vr then Res.err (.runtime "Division by zero")
          else liftHost (pyDiv vl vr) := rfl
    rw [hop, hz]
    rfl
  · intro h n s name h1 h2
    show (s, getVariable s name) = _
    simp [getVariable, h1, h2]

/-- Witness for C6: the concrete division `10 / 0` and the concrete
undefined reference `x` in a fresh interpreter both raise the stated
RuntimeErrors. -/
theorem C6_witness :
    (stepper dummyHost 6).evalExpr initState
        (.binaryOp (.number (.int 10)) "/" (.number (.int 0)))
      = (initState, .err (.runtime "Division by zero"))
    ∧ (stepper dummyHost 6).evalExpr initState (.var "x")
      = (initState, .err (.runtime "Undefined variable: \x27x\x27")) :=
  ⟨C6_div_zero_and_undefined_variable.1 dummyHost 5 initState initState initState
      (.number (.int 10)) (.number (.int 0)) (.int 10) (.int 0) rfl rfl rfl,
   C6_div_zero_and_undefined_variable.2.2 dummyHost 5 initState "x" rfl rfl⟩

theorem presLen_pure (s : St) (a : Res α) : PresLen s (s, a) := fun _ => rfl

theorem presLen_bind {s : St} {x : St × Res α} {f : St → α → St × Res β}
    (h1 : PresLen s x) (h2 : ∀ s' a, x = (s', Res.ok a) → PresLen s' (f s' a)) :
    PresLen s (stepBind x f) := by
  obtain ⟨s', r⟩ := x
  cases r with
  | ok a =>
    intro ht
    have hx := h1 (fun hc => Res.noConfusion hc)
    exact (h2 s' a rfl ht).trans hx
  | ret v => exact fun _ => h1 (fun hc => Res.noConfusion hc)
  | err e => exact fun _ => h1 (fun hc => Res.noConfusion hc)
  | timeout => exact fun ht => absurd rfl ht

theorem setVariable_locals_length (s : St) (name : String) (v : Value) :
    (setVariable s name v).local_vars.length = s.local_vars.length := by
  rcases s with ⟨g, lv, fs, out⟩
  cases lv <;> rfl

theorem popScope_locals_length (s : St) :
    (popScope s).local_vars.length = s.local_vars.length - 1 := by
  rcases s with ⟨g, lv, fs, out⟩
  cases lv <;> rfl

/-- Depth invariant of the evaluator: at every fuel level, every visit
method restores the local-scope stack to its input depth on every
non-timeout outcome.  Scopes are pushed only by the user-function branch of
`visit_FunctionCallNode`, whose `finally` pops on completion, early return
and error alike. -/
theorem stepper_preserves_locals (h : Host) :
    ∀ n : Nat,
      (∀ s e, PresLen s ((stepper h n).evalExpr s e))
      ∧ (∀ s es, PresLen s ((stepper h n).evalArgs s es))
      ∧ (∀ s ps acc, PresLen s ((stepper h n).evalDictPairs s ps acc))
      ∧ (∀ s st, PresLen s ((stepper h n).execStmt s st))
      ∧ (∀ s sts, PresLen s ((stepper h n).execStmts s sts))
      ∧ (∀ s els eb, PresLen s ((stepper h n).execElifs s els eb))
      ∧ (∀ s nm vs b, PresLen s ((stepper h n).execFor s nm vs b))
      ∧ (∀ s c b, PresLen s ((stepper h n).execWhile s c b)) := by
  intro n
  induction n with
  | zero =>
    exact ⟨fun s e ht => absurd rfl ht, fun s es ht => absurd rfl ht,
           fun s ps acc ht => absurd rfl ht, fun s st ht => absurd rfl ht,
           fun s sts ht => absurd rfl ht, fun s els eb ht => absurd rfl ht,
           fun s nm vs b ht => absurd rfl ht, fun s c b ht => absurd rfl ht⟩
  | succ n ih =>
    obtain ⟨ihE, ihA, ihD, ihS, ihSs, ihEl, ihF, ihW⟩ := ih
    refine ⟨fun s e => ?_, fun s es => ?_, fun s ps acc => ?_, fun s st => ?_,
            fun s sts => ?_, fun s els eb => ?_, fun s nm vs b => ?_, fun s c b => ?_⟩
    · cases e with
      | number v => exact presLen_pure s _
      | string str => exact presLen_pure s _
      | boolean b => exact presLen_pure s _
      | var nm => exact presLen_pure s _
      | binaryOp l op r =>
        exact presLen_bind (ihE s l) (fun s1 vl _ =>
          presLen_bind (ihE s1 r) (fun s2 vr _ => presLen_pure s2 _))
      | unaryOp op e0 =>
        exact presLen_bind (ihE s e0) (fun s1 v _ => presLen_pure s1 _)
      | functionCall nm args =>
        show PresLen s (if nm ∈ builtinNames then _ else _)
        split
        · exact presLen_bind (ihA s args) (fun s1 vs _ => by
            cases h.callBuiltin nm vs with
            | ok v => exact presLen_pure s1 _
            | error e0 => exact presLen_pure s1 _)
        · cases hfind : assocGet? s.functions nm with
          | none => exact presLen_pure s _
          | some func =>
            refine presLen_bind (ihA s args) (fun s1 vs _ => ?_)
            show PresLen s1 (if vs.length ≠ func.params.length then _ else _)
            split
            · exact presLen_pure s1 _
            · rcases hbody : (stepper h n).execStmts
                  (pushScope s1 ((func.params.zip vs).foldl
                    (fun m kv => assocSet m kv.1 kv.2) []))
                  func.body with ⟨s3, r3⟩
              have hp := ihSs (pushScope s1 ((func.params.zip vs).foldl
                  (fun m kv => assocSet m kv.1 kv.2) [])) func.body
              rw [hbody] at hp
              rw [hbody]
              cases r3 with
              | ok u =>
                intro _
                have h3 := hp (fun hc => Res.noConfusion hc)
                have h4 := popScope_locals_length s3
                simp [pushScope] at h3
                show (popScope s3).local_vars.length = s1.local_vars.length
                omega
              | ret v =>
                intro _
                have h3 := hp (fun hc => Res.noConfusion hc)
                have h4 := popScope_locals_length s3
                simp [pushScope] at h3
                show (popScope s3).local_vars.length = s1.local_vars.length
                omega
              | err e2 =>
                intro _
                have h3 := hp (fun hc => Res.noConfusion hc)
                have h4 := popScope_locals_length s3
                simp [pushScope] at h3
                show (popScope s3).local_vars.length = s1.local_vars.length
                omega
              | timeout => exact fun ht => absurd rfl ht
      | rangeE e1 e2 e3 =>
        refine presLen_bind (ihE s e1) (fun s1 v1 _ => ?_)
        cases pyToInt h v1 with
        | error e0 => exact presLen_pure s1 _
        | ok a =>
          refine presLen_bind (ihE s1 e2) (fun s2 v2 _ => ?_)
          cases pyToInt h v2 with
          | error e0 => exact presLen_pure s2 _
          | ok b =>
            refine presLen_bind (ihE s2 e3) (fun s3 v3 _ => ?_)
            cases pyToInt h v3 with
            | error e0 => exact presLen_pure s3 _
            | ok c =>
              show PresLen s3 (if c = 0 then _ else _)
              split
              · exact presLen_pure s3 _
              · exact presLen_pure s3 _
      | listE elems =>
        exact presLen_bind (ihA s elems) (fun s1 vs _ => presLen_pure s1 _)
      | dictE pairs =>
        exact presLen_bind (ihD s pairs []) (fun s1 ps0 _ => presLen_pure s1 _)
      | indexE obj idx =>
        refine presLen_bind (ihE s obj) (fun s1 vo _ =>
          presLen_bind (ihE s1 idx) (fun s2 vi _ => ?_))
        cases pyIndex vo vi with
        | ok v => exact presLen_pure s2 _
        | error e0 => exact presLen_pure s2 _
      | methodCall obj m args =>
        refine presLen_bind (ihE s obj) (fun s1 vo _ =>
          presLen_bind (ihA s1 args) (fun s2 vs _ => ?_))
        cases h.callMethod vo m vs with
        | ok v => exact presLen_pure s2 _
        | error me => cases me <;> exact presLen_pure s2 _
    · cases es with
      | nil => exact presLen_pure s _
      | cons e0 rest =>
        exact presLen_bind (ihE s e0) (fun s1 v _ =>
          presLen_bind (ihA s1 rest) (fun s2 vs _ => presLen_pure s2 _))
    · cases ps with
      | nil => exact presLen_pure s _
      | cons p rest =>
        obtain ⟨ke, ve⟩ := p
        refine presLen_bind (ihE s ke) (fun s1 k _ =>
          presLen_bind (ihE s1 ve) (fun s2 v _ => ?_))
        show PresLen s2 (if unhashable k then _ else _)
        split
        · exact presLen_pure s2 _
        · exact ihD s2 rest (pyDictSet acc k v)
    · cases st with
      | assignment nm e0 =>
        exact presLen_bind (ihE s e0)
          (fun s1 v _ _ => setVariable_locals_length s1 nm v)
      | printStmt e0 =>
        exact presLen_bind (ihE s e0) (fun s1 v _ _ => rfl)
      | functionDef nm params body => exact fun _ => rfl
      | ret oe =>
        cases oe with
        | none => exact presLen_pure s _
        | some e0 =>
          exact presLen_bind (ihE s e0) (fun s1 v _ => presLen_pure s1 _)
      | ifStmt cond thenB elifs elseB =>
        refine presLen_bind (ihE s cond) (fun s1 cv _ => ?_)
        show PresLen s1 (if truthy cv then _ else _)
        split
        · exact ihSs s1 thenB
        · exact ihEl s1 elifs elseB
      | forLoop nm iter body =>
        refine presLen_bind (ihE s iter) (fun s1 v _ => ?_)
        cases toIterList v with
        | error e0 => exact presLen_pure s1 _
        | ok vs0 => exact ihF s1 nm vs0 body
      | whileLoop cond body => exact ihW s cond body
      | exprStmt e0 =>
        exact presLen_bind (ihE s e0) (fun s1 v _ => presLen_pure s1 _)
    · cases sts with
      | nil => exact presLen_pure s _
      | cons st0 rest =>
        exact presLen_bind (ihS s st0) (fun s1 u _ => ihSs s1 rest)
    · cases els with
      | nil => exact ihSs s eb
      | cons p rest =>
        obtain ⟨c0, body⟩ := p
        refine presLen_bind (ihE s c0) (fun s1 v _ => ?_)
        show PresLen s1 (if truthy v then _ else _)
        split
        · exact ihSs s1 body
        · exact ihEl s1 rest eb
    · cases vs with
      | nil => exact presLen_pure s _
      | cons v rest =>
        refine presLen_bind ?_ (fun s2 u _ => ihF s2 nm rest b)
        intro ht
        exact (ihSs (setVariable s nm v) b ht).trans (setVariable_locals_length s nm v)
    · refine presLen_bind (ihE s c) (fun s1 cv _ => ?_)
      show PresLen s1 (if truthy cv then _ else _)
      split
      · exact presLen_bind (ihSs s1 b) (fun s2 u _ => ihW s2 c b)
      · exact presLen_pure s1 _

/-- C8: a function-call expression leaves the local-scope stack at its
pre-call depth on every completed outcome (normal completion, early return,
or error): exactly the scope pushed on entry is popped by the
unconditional `finally` before control leaves the call. -/
theorem C8_call_restores_scope_depth (h : Host) (n : Nat) (s : St)
    (name : String) (args : List Expr)
    (hnt : ((stepper h n).evalExpr s (.functionCall name args)).2 ≠ Res.timeout) :
    ((stepper h n).evalExpr s (.functionCall name args)).1.local_vars.length
      = s.local_vars.length :=
  (stepper_preserves_locals h n).1 s (.functionCall name args) hnt

/-- Witness for C8: calling the parameterless user function `f` of
`stateWithF` completes and leaves the (empty) local-scope stack at its
pre-call depth. -/
theorem C8_witness :
    ((stepper dummyHost 5).evalExpr stateWithF (.functionCall "f" [])).1.local_vars.length
      = stateWithF.local_vars.length :=
  C8_call_restores_scope_depth dummyHost 5 stateWithF "f" []
    (fun hc => Res.noConfusion hc)

/-- C10: a fresh interpreter's global scope maps `pi` and `e` to the host
float constants before any statement runs, and the top-level assignment
`pi = 3` rebinds the ordinary global entry so a subsequent read through the
evaluator yields `3`. -/
theorem C10_constants_prebound_and_rebindable :
    getVariable initState "pi" = .ok (.float mathPi)
    ∧ getVariable initState "e" = .ok (.float mathE)
    ∧ assocGet? (run dummyHost 40 progRebindPi).1.global_vars "pi" = some (.int 3)
    ∧ assocGet? (run dummyHost 40 progRebindPi).1.global_vars "x" = some (.int 3)
    ∧ (run dummyHost 40 progRebindPi).2 = .ok () := ⟨rfl, rfl, rfl, rfl, rfl⟩

end Qor
